import Mathlib

/-!
Verification of the newsbot ingestion-and-summarization pipeline.

This file shallow-embeds the security- and correctness-relevant parts of
the repository (src/collect.py, src/summarize.py, src/utils/retry.py) as
executable Lean definitions and proves the specification claims about them.
Machine integers are modelled as Nat; Python dictionaries keyed by strings
are modelled as association lists; Python sets are modelled as lists, which
is membership-equivalent; outbound I/O (DNS resolution, URL parsing by
urllib, content extraction, LLM calls) is passed in as explicit function
arguments; Python exceptions are modelled with Option/Except.
-/

/-! ## IP addresses (collect.py lines 19-26, 105-112)

Python `ipaddress` objects are modelled as the numeric value of the
address: a Nat below 2^32 for IPv4 and below 2^128 for IPv6. -/

/-- An IP address: IPv4 or IPv6, stored as its numeric value. -/
inductive IPAddr where
  | v4 (a : Nat)
  | v6 (a : Nat)
deriving DecidableEq, Repr

/-- An IP network in CIDR form: the aligned base address and the length
of the routing mask, per address family. -/
inductive IPNetwork where
  | v4 (net plen : Nat)
  | v6 (net plen : Nat)
deriving DecidableEq, Repr

/-- Membership of an address value in a CIDR block over `bits`-bit
addresses: the top `plen` bits agree. -/
def inNet (addr net plen bits : Nat) : Bool :=
  addr / 2 ^ (bits - plen) = net / 2 ^ (bits - plen)

/-- Numeric value of a dotted-quad IPv4 address. -/
def ip4 (a b c d : Nat) : Nat :=
  ((a * 256 + b) * 256 + c) * 256 + d

/-- Numeric value of an IPv6 address given its eight 16-bit groups. -/
def ip6 (g1 g2 g3 g4 g5 g6 g7 g8 : Nat) : Nat :=
  ((((((g1 * 65536 + g2) * 65536 + g3) * 65536 + g4) * 65536 + g5)
      * 65536 + g6) * 65536 + g7) * 65536 + g8

/-- Python `ipaddress.ip_network.__contains__`: false when the families
differ, CIDR membership otherwise. -/
def IPNetwork.containsIp : IPNetwork → IPAddr → Bool
  | .v4 n p, .v4 a => inNet a n p 32
  | .v6 n p, .v6 a => inNet a n p 128
  | _, _ => false

/-- The CPython `IPv4Address._private_networks` list backing
`IPv4Address.is_private`. -/
def privateNetworksV4 : List (Nat × Nat) :=
  [ (ip4 0 0 0 0, 8), (ip4 10 0 0 0, 8), (ip4 127 0 0 0, 8),
    (ip4 169 254 0 0, 16), (ip4 172 16 0 0, 12), (ip4 192 0 0 0, 29),
    (ip4 192 0 0 170, 31), (ip4 192 0 2 0, 24), (ip4 192 168 0 0, 16),
    (ip4 198 18 0 0, 15), (ip4 198 51 100 0, 24), (ip4 203 0 113 0, 24),
    (ip4 240 0 0 0, 4), (ip4 255 255 255 255, 32) ]

/-- The CPython `IPv6Address._private_networks` list backing
`IPv6Address.is_private`. -/
def privateNetworksV6 : List (Nat × Nat) :=
  [ (ip6 0 0 0 0 0 0 0 1, 128), (ip6 0 0 0 0 0 0 0 0, 128),
    (ip6 0 0 0 0 0 0xffff 0 0, 96), (ip6 0x100 0 0 0 0 0 0 0, 64),
    (ip6 0x2001 0 0 0 0 0 0 0, 23), (ip6 0x2001 2 0 0 0 0 0 0, 48),
    (ip6 0x2001 0xdb8 0 0 0 0 0 0, 32), (ip6 0x2001 0x10 0 0 0 0 0 0, 28),
    (ip6 0xfc00 0 0 0 0 0 0 0, 7), (ip6 0xfe80 0 0 0 0 0 0 0, 10) ]

/-- Python `ip.is_private`. -/
def IPAddr.isPrivatePy : IPAddr → Bool
  | .v4 a => privateNetworksV4.any fun np => inNet a np.1 np.2 32
  | .v6 a => privateNetworksV6.any fun np => inNet a np.1 np.2 128

/-- Python `ip.is_loopback`: `127.0.0.0/8` for IPv4, `::1` for IPv6. -/
def IPAddr.isLoopbackPy : IPAddr → Bool
  | .v4 a => inNet a (ip4 127 0 0 0) 8 32
  | .v6 a => a = 1

/-- Python `ip.is_link_local`: `169.254.0.0/16` for IPv4, `fe80::/10` for
IPv6. -/
def IPAddr.isLinkLocalPy : IPAddr → Bool
  | .v4 a => inNet a (ip4 169 254 0 0) 16 32
  | .v6 a => inNet a (ip6 0xfe80 0 0 0 0 0 0 0) 10 128

/-- Python `ip.is_multicast`: `224.0.0.0/4` for IPv4, `ff00::/8` for
IPv6. -/
def IPAddr.isMulticastPy : IPAddr → Bool
  | .v4 a => inNet a (ip4 224 0 0 0) 4 32
  | .v6 a => inNet a (ip6 0xff00 0 0 0 0 0 0 0) 8 128

/-- The module-level `PRIVATE_NETWORKS` list of collect.py lines 19-26. -/
def PRIVATE_NETWORKS : List IPNetwork :=
  [ .v4 (ip4 10 0 0 0) 8, .v4 (ip4 172 16 0 0) 12,
    .v4 (ip4 192 168 0 0) 16, .v4 (ip4 127 0 0 0) 8,
    .v6 (ip6 0 0 0 0 0 0 0 1) 128, .v6 (ip6 0xfc00 0 0 0 0 0 0 0) 7 ]

/-- Embeds `_is_public_ip` (collect.py lines 105-112). The resolver hands
us already-parsed addresses, so `ipaddress.ip_address(ip_str)` is the
identity here. -/
def _is_public_ip (ip : IPAddr) : Bool :=
  if ip.isPrivatePy || ip.isLoopbackPy || ip.isLinkLocalPy || ip.isMulticastPy then
    false
  else if PRIVATE_NETWORKS.any fun n => n.containsIp ip then
    false
  else
    true

/-! ## URL validation (collect.py lines 94-144) -/

/-- The result of `urllib.parse.urlparse` restricted to the fields
`validate_article_url` reads. Python's `.hostname` accessor lowercases the
host and yields `None` when absent. -/
structure ParsedUrl where
  scheme : String
  hostname : Option String
deriving DecidableEq, Repr

/-- The second component of the `(bool, reason)` pair returned by
`validate_article_url`; `ok` stands for the empty reason string of the
success case, and `forbiddenIp` carries the offending address exactly as
the f-string `forbidden-ip:{ip}` does. -/
inductive Reason where
  | ok
  | nonHttps
  | missingHost
  | domainNotAllowlisted
  | unresolvedHost
  | forbiddenIp (ip : IPAddr)
deriving DecidableEq, Repr

/-- Python `str.lower`, character by character. Implemented over the
character list so that it reduces inside the kernel. -/
def pyLower (s : String) : String :=
  String.mk (s.toList.map Char.toLower)

/-- Python `str.endswith`. -/
def pyEndsWith (s suffixStr : String) : Bool :=
  List.isSuffixOf suffixStr.toList s.toList

/-- Strip leading and trailing dot characters, as Python
`str.strip(".")` does. -/
def stripDots (s : String) : String :=
  String.mk (((s.toList.dropWhile fun c => c = '.').reverse.dropWhile
    fun c => c = '.').reverse)

/-- Embeds `_normalize_domain` (collect.py lines 94-95):
`host.lower().strip(".") if host else ""`. -/
def _normalize_domain (host : Option String) : String :=
  match host with
  | none => ""
  | some h => if h = "" then "" else stripDots (pyLower h)

/-- Embeds `_domain_in_allowlist` (collect.py lines 98-102). The Python
set of allowed domains is modelled as a list; `any` is
membership-equivalent. -/
def _domain_in_allowlist (domain : String) (allowlist : List String) : Bool :=
  allowlist.any fun allowed =>
    domain == allowed || pyEndsWith domain ("." ++ allowed)

/-- Embeds `validate_article_url` (collect.py lines 123-144). DNS lookup
(`_host_addresses`, lines 115-120) is I/O and is passed in as `resolver`;
it returns the already-parsed address list, empty on resolution failure. -/
def validate_article_url (url : ParsedUrl) (allowlist : List String)
    (resolver : String → List IPAddr) : Bool × Reason :=
  if pyLower url.scheme ≠ "https" then
    (false, .nonHttps)
  else
    let domain := _normalize_domain url.hostname
    if domain = "" then
      (false, .missingHost)
    else if ¬ _domain_in_allowlist domain allowlist then
      (false, .domainNotAllowlisted)
    else
      let addresses := resolver domain
      if addresses = [] then
        (false, .unresolvedHost)
      else
        match addresses.find? fun ip => ! _is_public_ip ip with
        | some ip => (false, .forbiddenIp ip)
        | none => (true, .ok)

/-- The address ranges enumerated by claim C2 as forbidden: the three
RFC1918 blocks, loopback, link-local, multicast, and IPv6 unique-local.
Stated with the same range machinery the source uses, for comparison with
`_is_public_ip`. -/
def forbiddenRangeClaim (ip : IPAddr) : Bool :=
  match ip with
  | .v4 a =>
      inNet a (ip4 10 0 0 0) 8 32 || inNet a (ip4 172 16 0 0) 12 32 ||
      inNet a (ip4 192 168 0 0) 16 32 || IPAddr.isLoopbackPy (.v4 a) ||
      IPAddr.isLinkLocalPy (.v4 a) || IPAddr.isMulticastPy (.v4 a)
  | .v6 a =>
      IPAddr.isLoopbackPy (.v6 a) || IPAddr.isLinkLocalPy (.v6 a) ||
      IPAddr.isMulticastPy (.v6 a) || inNet a (ip6 0xfc00 0 0 0 0 0 0 0) 7 128

/-- Every address in the ranges listed by claim C2 is rejected by
`_is_public_ip`. -/
theorem forbiddenRangeClaim_not_public (ip : IPAddr)
    (h : forbiddenRangeClaim ip = true) : _is_public_ip ip = false := by
  cases ip with
  | v4 a =>
      simp only [forbiddenRangeClaim, Bool.or_eq_true] at h
      have hbad : IPAddr.isPrivatePy (.v4 a) = true ∨
          IPAddr.isLoopbackPy (.v4 a) = true ∨
          IPAddr.isLinkLocalPy (.v4 a) = true ∨
          IPAddr.isMulticastPy (.v4 a) = true := by
        rcases h with ((((h10 | h172) | h192) | hlo) | hll) | hmc
        · refine Or.inl ?_
          simp only [IPAddr.isPrivatePy, List.any_eq_true]
          exact ⟨(ip4 10 0 0 0, 8), by simp [privateNetworksV4], h10⟩
        · refine Or.inl ?_
          simp only [IPAddr.isPrivatePy, List.any_eq_true]
          exact ⟨(ip4 172 16 0 0, 12), by simp [privateNetworksV4], h172⟩
        · refine Or.inl ?_
          simp only [IPAddr.isPrivatePy, List.any_eq_true]
          exact ⟨(ip4 192 168 0 0, 16), by simp [privateNetworksV4], h192⟩
        · exact Or.inr (Or.inl hlo)
        · exact Or.inr (Or.inr (Or.inl hll))
        · exact Or.inr (Or.inr (Or.inr hmc))
      simp only [_is_public_ip]
      rcases hbad with hb | hb | hb | hb <;> simp [hb]
  | v6 a =>
      simp only [forbiddenRangeClaim, Bool.or_eq_true] at h
      have hbad : IPAddr.isPrivatePy (.v6 a) = true ∨
          IPAddr.isLoopbackPy (.v6 a) = true ∨
          IPAddr.isLinkLocalPy (.v6 a) = true ∨
          IPAddr.isMulticastPy (.v6 a) = true := by
        rcases h with ((hlo | hll) | hmc) | huniq
        · exact Or.inr (Or.inl hlo)
        · exact Or.inr (Or.inr (Or.inl hll))
        · exact Or.inr (Or.inr (Or.inr hmc))
        · refine Or.inl ?_
          simp only [IPAddr.isPrivatePy, List.any_eq_true]
          exact ⟨(ip6 0xfc00 0 0 0 0 0 0 0, 7), by simp [privateNetworksV6], huniq⟩
      simp only [_is_public_ip]
      rcases hbad with hb | hb | hb | hb <;> simp [hb]

/-- A resolver that maps every hostname to the single public address
93.184.216.34 (example.com's historical address). -/
def pubResolver : String → List IPAddr :=
  fun _ => [.v4 (ip4 93 184 216 34)]

/-- The parse of `https://a.b.example.com/x`. -/
def subUrl : ParsedUrl := ⟨"https", some "a.b.example.com"⟩

/-- C2 (confirmed): for every URL whose scheme is HTTPS, whose normalized
hostname is nonempty and allowlisted, and whose hostname resolves to a
list of addresses at least one of which lies inside the forbidden ranges
(10.0.0.0/8, 172.16.0.0/12, 192.168.0.0/16, loopback, link-local,
multicast, IPv6 unique-local), `validate_article_url` rejects the URL
with a `forbidden-ip` reason. In particular a hostname resolving
exclusively to forbidden addresses is rejected, and a single unsafe
address among many is sufficient even when the others are public. -/
theorem c2_forbidden_ip (url : ParsedUrl) (allowlist : List String)
    (resolver : String → List IPAddr)
    (hscheme : pyLower url.scheme = "https")
    (hhost : _normalize_domain url.hostname ≠ "")
    (hallow : _domain_in_allowlist (_normalize_domain url.hostname) allowlist = true)
    (hforbidden : ∃ ip ∈ resolver (_normalize_domain url.hostname),
        forbiddenRangeClaim ip = true) :
    (validate_article_url url allowlist resolver).1 = false ∧
    ∃ ip, validate_article_url url allowlist resolver = (false, .forbiddenIp ip) := by
  obtain ⟨ip0, hmem, hforb⟩ := hforbidden
  have hne : resolver (_normalize_domain url.hostname) ≠ [] := by
    intro hnil
    rw [hnil] at hmem
    exact List.not_mem_nil ip0 hmem
  cases hf : (resolver (_normalize_domain url.hostname)).find?
      (fun ip => ! _is_public_ip ip) with
  | none =>
      rw [List.find?_eq_none] at hf
      have := hf ip0 hmem
      simp [forbiddenRangeClaim_not_public ip0 hforb] at this
  | some ip =>
      have hres : validate_article_url url allowlist resolver =
          (false, .forbiddenIp ip) := by
        simp only [validate_article_url, hscheme]
        simp [hhost, hallow, hne, hf]
      exact ⟨by rw [hres], ip, hres⟩

/-- C2 witness: the allowlisted host `internal.example.com` resolving to
10.0.0.5 is rejected. -/
theorem c2_forbidden_ip_witness :
    ∃ ip, validate_article_url ⟨"https", some "internal.example.com"⟩
      ["example.com"] (fun _ => [.v4 (ip4 10 0 0 5)]) = (false, .forbiddenIp ip) :=
  (c2_forbidden_ip ⟨"https", some "internal.example.com"⟩ ["example.com"]
    (fun _ => [.v4 (ip4 10 0 0 5)]) (by decide) (by decide) (by decide)
    ⟨.v4 (ip4 10 0 0 5), by decide, by decide⟩).2

/-- C3 (confirmed): `validate_article_url` applies its checks in the fixed
order scheme, hostname, allowlist, DNS resolution, IP safety, the first
failing check alone determining the reported reason; a non-HTTPS scheme is
rejected as `nonHttps` regardless of everything else; the allowlist check
passes exactly when the domain equals an entry or ends with a dot followed
by an entry; and `https://a.b.example.com/x` passes against
`example.com` (with a public resolution) while being rejected as
`domainNotAllowlisted` against `other.com`. -/
theorem c3_check_order :
    (∀ (url : ParsedUrl) (allowlist : List String) (resolver : String → List IPAddr),
        pyLower url.scheme ≠ "https" →
        validate_article_url url allowlist resolver = (false, .nonHttps)) ∧
    (∀ (url : ParsedUrl) (allowlist : List String) (resolver : String → List IPAddr),
        pyLower url.scheme = "https" → _normalize_domain url.hostname = "" →
        validate_article_url url allowlist resolver = (false, .missingHost)) ∧
    (∀ (url : ParsedUrl) (allowlist : List String) (resolver : String → List IPAddr),
        pyLower url.scheme = "https" → _normalize_domain url.hostname ≠ "" →
        _domain_in_allowlist (_normalize_domain url.hostname) allowlist = false →
        validate_article_url url allowlist resolver = (false, .domainNotAllowlisted)) ∧
    (∀ (url : ParsedUrl) (allowlist : List String) (resolver : String → List IPAddr),
        pyLower url.scheme = "https" → _normalize_domain url.hostname ≠ "" →
        _domain_in_allowlist (_normalize_domain url.hostname) allowlist = true →
        resolver (_normalize_domain url.hostname) = [] →
        validate_article_url url allowlist resolver = (false, .unresolvedHost)) ∧
    (∀ (domain : String) (allowlist : List String),
        _domain_in_allowlist domain allowlist = true ↔
          ∃ a ∈ allowlist, domain = a ∨ pyEndsWith domain ("." ++ a) = true) ∧
    validate_article_url subUrl ["example.com"] pubResolver = (true, .ok) ∧
    validate_article_url subUrl ["other.com"] pubResolver =
      (false, .domainNotAllowlisted) := by
  refine ⟨?_, ?_, ?_, ?_, ?_, by decide, by decide⟩
  · intro url allowlist resolver h
    simp [validate_article_url, h]
  · intro url allowlist resolver hs hh
    simp [validate_article_url, hs, hh]
  · intro url allowlist resolver hs hh ha
    simp [validate_article_url, hs, hh, ha]
  · intro url allowlist resolver hs hh ha hr
    simp [validate_article_url, hs, hh, ha, hr]
  · intro domain allowlist
    simp [_domain_in_allowlist, List.any_eq_true]

/-- C3 witness: an `http` URL is rejected as `nonHttps`. -/
theorem c3_check_order_witness :
    validate_article_url ⟨"http", some "example.com"⟩ ["example.com"]
      pubResolver = (false, .nonHttps) :=
  c3_check_order.1 ⟨"http", some "example.com"⟩ ["example.com"] pubResolver
    (by decide)

/-! ## Summarization engine (summarize.py) -/

/-- An input article as consumed by the summarizer: the dictionary keys
`title`, `url` and `text` that summarize.py reads. -/
structure ArticleIn where
  title : String
  url : String
  text : String
deriving DecidableEq, Repr

/-- The dictionary returned by `summarize_article` (summarize.py lines
125-129). -/
structure SummaryRecord where
  title : String
  url : String
  summary : List String
deriving DecidableEq, Repr

/-- Embeds the `SummarizationResult` dataclass (summarize.py lines
21-32). -/
structure SummarizationResult where
  summaries : List SummaryRecord
  failed : Nat
  estimated_tokens : Nat
  skipped_due_to_budget : Nat
deriving DecidableEq, Repr

/-- The `limit_reached` property of `SummarizationResult`. -/
def SummarizationResult.limit_reached (r : SummarizationResult) : Bool :=
  r.skipped_due_to_budget > 0

/-- Embeds `_estimate_tokens_for_article` (summarize.py lines 231-235):
100 for a falsy (empty) text, otherwise `max(100, len(text) // 4 + 200)`. -/
def _estimate_tokens_for_article (text : String) : Nat :=
  if text = "" then 100 else max 100 (text.length / 4 + 200)

/-- The truthiness test `if max_tokens and (budget_used + estimated) >
max_tokens` of summarize.py line 193: `None` and `0` budgets disable the
check. -/
def budgetExceeded (max_tokens : Option Nat) (total : Nat) : Bool :=
  match max_tokens with
  | none => false
  | some b => b ≠ 0 && total > b

/-- The outcome of the scheduling loop of `summarize_articles`
(summarize.py lines 191-203): the articles whose jobs were scheduled, the
final `budget_used`, and `skipped_due_to_budget`. -/
structure SchedState where
  scheduled : List ArticleIn
  budget_used : Nat
  skipped : Nat
deriving DecidableEq, Repr

/-- Embeds the scheduling loop of `summarize_articles` (summarize.py
lines 191-203): articles are considered in input order; at the first
article whose estimate would push `budget_used` over a configured budget
the loop breaks, counting that article and all later ones as skipped. -/
def schedule : List ArticleIn → Option Nat → Nat → SchedState
  | [], _, used => ⟨[], used, 0⟩
  | a :: rest, max_tokens, used =>
    let est := _estimate_tokens_for_article a.text
    if budgetExceeded max_tokens (used + est) then
      ⟨[], used, (a :: rest).length⟩
    else
      let s := schedule rest max_tokens (used + est)
      ⟨a :: s.scheduled, s.budget_used, s.skipped⟩

/-- Embeds `summarize_articles` (summarize.py lines 148-228) around an
explicit per-article outcome `oracle`: `oracle a = some record` models
`summarize_article` returning `record` for `a`, and `oracle a = none`
models it raising, which `_summarize_with_limit` (lines 166-189) converts
into a `None` slot and one increment of `total_failed`. `asyncio.gather`
(line 207) yields results positionally in scheduling order, and line 208
keeps the truthy (non-`None`) ones. -/
def summarize_articles (articles : List ArticleIn)
    (oracle : ArticleIn → Option SummaryRecord)
    (max_tokens : Option Nat) : SummarizationResult :=
  let s := schedule articles max_tokens 0
  let results := s.scheduled.map oracle
  { summaries := results.filterMap id
    failed := (results.filter fun r => r.isNone).length
    estimated_tokens := s.budget_used
    skipped_due_to_budget := s.skipped }

/-- Sum of the token estimates of a list of articles. -/
def estSum (l : List ArticleIn) : Nat :=
  (l.map fun a => _estimate_tokens_for_article a.text).sum

theorem estSum_nil : estSum [] = 0 := rfl

theorem estSum_cons (a : ArticleIn) (l : List ArticleIn) :
    estSum (a :: l) = _estimate_tokens_for_article a.text + estSum l := by
  simp [estSum]

/-- The scheduled articles form a prefix of the input list. -/
theorem schedule_scheduled_take (l : List ArticleIn) (mt : Option Nat)
    (used : Nat) :
    (schedule l mt used).scheduled = l.take (schedule l mt used).scheduled.length := by
  induction l generalizing used with
  | nil => rfl
  | cons a rest ih =>
      simp only [schedule]
      split
      · rfl
      · simp only [List.length_cons, List.take_succ_cons, List.cons.injEq, true_and]
        exact ih _

/-- The skipped count is the input length minus the scheduled length. -/
theorem schedule_skipped_eq (l : List ArticleIn) (mt : Option Nat)
    (used : Nat) :
    (schedule l mt used).skipped = l.length - (schedule l mt used).scheduled.length := by
  induction l generalizing used with
  | nil => rfl
  | cons a rest ih =>
      simp only [schedule]
      split
      · simp
      · simp only [List.length_cons, Nat.succ_sub_succ]
        exact ih _

/-- The final `budget_used` is the initial one plus the scheduled
articles' estimates. -/
theorem schedule_used_eq (l : List ArticleIn) (mt : Option Nat)
    (used : Nat) :
    (schedule l mt used).budget_used = used + estSum (schedule l mt used).scheduled := by
  induction l generalizing used with
  | nil => simp [schedule, estSum_nil]
  | cons a rest ih =>
      simp only [schedule]
      split
      · simp [estSum_nil]
      · rw [ih, estSum_cons]
        omega

/-- With a positive budget, the scheduled articles' estimates never
exceed it. -/
theorem schedule_sum_le (l : List ArticleIn) (b : Nat) (hb : 0 < b) :
    ∀ used, used ≤ b → used + estSum (schedule l (some b) used).scheduled ≤ b := by
  induction l with
  | nil => intro used h; simpa [schedule, estSum_nil]
  | cons a rest ih =>
      intro used h
      simp only [schedule]
      split
      · simpa [estSum_nil]
      · next hpass =>
          simp only [budgetExceeded, Bool.and_eq_true, decide_eq_true_eq,
            ne_eq, Bool.not_eq_true'] at hpass
          have hle : used + _estimate_tokens_for_article a.text ≤ b := by
            rcases Nat.lt_or_ge b (used + _estimate_tokens_for_article a.text) with hgt | hok
            · exact absurd ⟨by simpa using Nat.pos_iff_ne_zero.mp hb, hgt⟩ hpass
            · exact hok
          have := ih _ hle
          rw [estSum_cons]
          omega

/-- With a positive budget, when the loop stopped before the end of the
input, the estimates of the scheduled prefix plus the next article
strictly exceed the budget. -/
theorem schedule_cut (l : List ArticleIn) (b : Nat) :
    ∀ used, (schedule l (some b) used).scheduled.length < l.length →
      b < used + estSum (l.take ((schedule l (some b) used).scheduled.length + 1)) := by
  induction l with
  | nil => intro used h; simp at h
  | cons a rest ih =>
      intro used h
      cases hcond : budgetExceeded (some b) (used + _estimate_tokens_for_article a.text) with
      | true =>
          simp only [schedule, hcond, if_true] at h ⊢
          simp only [budgetExceeded, Bool.and_eq_true, decide_eq_true_eq] at hcond
          simp only [List.length_nil, Nat.zero_add, List.take_succ_cons,
            List.take_zero, estSum_cons, estSum_nil]
          omega
      | false =>
          simp only [schedule, hcond, Bool.false_eq_true, if_false] at h ⊢
          simp only [List.length_cons, Nat.add_lt_add_iff_right] at h
          have := ih (used + _estimate_tokens_for_article a.text) h
          simp only [List.length_cons, List.take_succ_cons, estSum_cons]
          omega

/-- Without a configured budget every article is scheduled and nothing is
skipped. -/
theorem schedule_none (l : List ArticleIn) (used : Nat) :
    (schedule l none used).scheduled = l ∧ (schedule l none used).skipped = 0 := by
  induction l generalizing used with
  | nil => exact ⟨rfl, rfl⟩
  | cons a rest ih =>
      simp only [schedule, budgetExceeded]
      constructor
      · simp [(ih _).1]
      · simp [(ih _).2]

/-- The summaries field aggregates the scheduled jobs' records in
scheduling order, dropping the failed slots. -/
theorem summaries_eq (articles : List ArticleIn)
    (oracle : ArticleIn → Option SummaryRecord) (mt : Option Nat) :
    (summarize_articles articles oracle mt).summaries =
      (schedule articles mt 0).scheduled.filterMap oracle := by
  simp [summarize_articles, List.filterMap_map]

/-- The failed counter counts exactly the scheduled jobs whose
summarization raised. -/
theorem failed_eq (articles : List ArticleIn)
    (oracle : ArticleIn → Option SummaryRecord) (mt : Option Nat) :
    (summarize_articles articles oracle mt).failed =
      ((schedule articles mt 0).scheduled.filter fun a => (oracle a).isNone).length := by
  simp only [summarize_articles, List.filter_map, List.length_map]
  rfl

/-- Successes plus failures partition a list of job outcomes. -/
theorem filterMap_filter_none_length {α β : Type} (oracle : α → Option β)
    (l : List α) :
    (l.filterMap oracle).length + (l.filter fun a => (oracle a).isNone).length
      = l.length := by
  induction l with
  | nil => rfl
  | cons a rest ih =>
      cases h : oracle a <;>
        simp [List.filterMap_cons, h, List.filter_cons] <;> omega

/-- A 400-character article body, whose token estimate is exactly 300. -/
def longBody : String := String.mk (List.replicate 400 'x')

/-- A budget-test article with the 400-character body. -/
def bArt (t : String) : ArticleIn := ⟨t, t, longBody⟩

/-- Three articles with estimated costs 300 each. -/
def threeArts : List ArticleIn := [bArt "1", bArt "2", bArt "3"]

/-- An always-succeeding per-article summarization outcome. -/
def recOracle : ArticleIn → Option SummaryRecord :=
  fun a => some ⟨a.title, a.url, [a.title]⟩

/-- An outcome failing exactly on the article titled `2`. -/
def failOracle : ArticleIn → Option SummaryRecord :=
  fun a => if a.title = "2" then none else some ⟨a.title, a.url, [a.title]⟩

/-- C1 counterexample: with the configured token budget 0 the code
schedules every article and skips none, although the first article's
positive estimate already exceeds that budget, so the claimed cutoff
behaviour fails for the configured budget 0 (Python treats a zero
`max_tokens` as falsy and disables the check). -/
theorem c1_counterexample :
    0 < _estimate_tokens_for_article (ArticleIn.mk "t" "u" "").text ∧
    (summarize_articles [ArticleIn.mk "t" "u" ""] recOracle (some 0)).skipped_due_to_budget = 0 ∧
    (summarize_articles [ArticleIn.mk "t" "u" ""] recOracle (some 0)).summaries.length = 1 := by
  decide

set_option maxRecDepth 8192

/-- C1 (amended to positive budgets): for every positive configured
budget, the scheduled jobs are a prefix of the input, their estimates sum
to at most the budget, the first unscheduled article would push the sum
over the budget, `skipped_due_to_budget` counts that article and all later
ones, and the already-scheduled jobs still run; with estimated costs
`[300, 300, 300]` and budget 650 exactly the first two articles are
scheduled and `skipped_due_to_budget = 1`. -/
theorem c1_budget_cutoff_amended :
    (∀ (articles : List ArticleIn) (oracle : ArticleIn → Option SummaryRecord)
        (b : Nat), 0 < b →
      (schedule articles (some b) 0).scheduled =
        articles.take (schedule articles (some b) 0).scheduled.length ∧
      estSum (schedule articles (some b) 0).scheduled ≤ b ∧
      ((schedule articles (some b) 0).scheduled.length < articles.length →
        b < estSum (articles.take
          ((schedule articles (some b) 0).scheduled.length + 1))) ∧
      (summarize_articles articles oracle (some b)).skipped_due_to_budget =
        articles.length - (schedule articles (some b) 0).scheduled.length ∧
      (summarize_articles articles oracle (some b)).summaries =
        (schedule articles (some b) 0).scheduled.filterMap oracle) ∧
    (schedule threeArts (some 650) 0).scheduled = [bArt "1", bArt "2"] ∧
    (summarize_articles threeArts recOracle (some 650)).skipped_due_to_budget = 1 := by
  refine ⟨?_, by decide, by decide⟩
  intro articles oracle b hb
  refine ⟨schedule_scheduled_take _ _ _, ?_, ?_, ?_, summaries_eq _ _ _⟩
  · simpa using schedule_sum_le articles b hb 0 (Nat.zero_le b)
  · intro h
    simpa using schedule_cut articles b 0 h
  · simp only [summarize_articles]
    exact schedule_skipped_eq _ _ _

/-- C1 witness: the general cutoff statement applied at budget 650 and
the three 300-cost articles. -/
theorem c1_budget_cutoff_witness :
    (summarize_articles threeArts recOracle (some 650)).summaries =
      (schedule threeArts (some 650) 0).scheduled.filterMap recOracle :=
  (c1_budget_cutoff_amended.1 threeArts recOracle 650 (by decide)).2.2.2.2

/-- C4 (confirmed): a failing summarization job increments the failure
counter by exactly one, contributes no record, and never prevents the
other scheduled articles from producing theirs: with no budget the failed
count equals the number of failing articles, the summaries are exactly the
succeeding articles' records, and the two partition the input; with
exactly one of three articles failing, `failed = 1` and two summaries
remain. -/
theorem c4_failure_isolation :
    (∀ (articles : List ArticleIn) (oracle : ArticleIn → Option SummaryRecord),
      (summarize_articles articles oracle none).failed =
        (articles.filter fun a => (oracle a).isNone).length ∧
      (summarize_articles articles oracle none).summaries =
        articles.filterMap oracle ∧
      (summarize_articles articles oracle none).summaries.length +
        (summarize_articles articles oracle none).failed = articles.length) ∧
    (summarize_articles threeArts failOracle none).failed = 1 ∧
    (summarize_articles threeArts failOracle none).summaries.length = 2 := by
  refine ⟨?_, by decide, by decide⟩
  intro articles oracle
  have hsched := (schedule_none articles 0).1
  refine ⟨?_, ?_, ?_⟩
  · rw [failed_eq, hsched]
  · rw [summaries_eq, hsched]
  · rw [failed_eq, summaries_eq, hsched]
    exact filterMap_filter_none_length oracle articles

/-- C9 counterexample: on the empty body the code returns 100, not the
claimed `max(100, 0 div 4 + 200) = 200`. -/
theorem c9_counterexample :
    _estimate_tokens_for_article "" ≠ max 100 ("".length / 4 + 200) := by
  decide

/-- C9 (amended): the estimate is 100 for an empty body and
`length div 4 + 200` for a non-empty one (where the `max` with 100 is
redundant), and it is never below 100. -/
theorem c9_estimate_amended :
    ∀ text : String,
      _estimate_tokens_for_article text =
        (if text = "" then 100 else text.length / 4 + 200) ∧
      100 ≤ _estimate_tokens_for_article text ∧
      (text ≠ "" →
        _estimate_tokens_for_article text = max 100 (text.length / 4 + 200)) := by
  intro text
  by_cases h : text = ""
  · subst h
    exact ⟨rfl, by decide, fun hne => absurd rfl hne⟩
  · have hmax : max 100 (text.length / 4 + 200) = text.length / 4 + 200 :=
      Nat.max_eq_right (by omega)
    refine ⟨?_, ?_, fun _ => ?_⟩
    · simp [_estimate_tokens_for_article, h, hmax]
    · simp only [_estimate_tokens_for_article, h, if_false, hmax]
      omega
    · simp [_estimate_tokens_for_article, h]

/-- C9 witness: the amended statement evaluated on a non-empty body. -/
theorem c9_estimate_witness :
    _estimate_tokens_for_article "hello" = max 100 ("hello".length / 4 + 200) :=
  (c9_estimate_amended "hello").2.2 (by decide)

/-- C10 (confirmed): the returned summaries are exactly the successfully
summarized articles' records in input order — the records of the scheduled
input prefix with failed slots filtered out — and thus a sublist of the
per-article records of the whole input; without a budget they are exactly
the successes of the whole input in order. -/
theorem c10_order_preserved :
    ∀ (articles : List ArticleIn) (oracle : ArticleIn → Option SummaryRecord)
      (mt : Option Nat),
      (summarize_articles articles oracle mt).summaries =
        (articles.take (schedule articles mt 0).scheduled.length).filterMap oracle ∧
      List.Sublist (summarize_articles articles oracle mt).summaries
        (articles.filterMap oracle) ∧
      (summarize_articles articles oracle none).summaries =
        articles.filterMap oracle := by
  intro articles oracle mt
  refine ⟨?_, ?_, ?_⟩
  · rw [summaries_eq, ← schedule_scheduled_take]
  · rw [summaries_eq, schedule_scheduled_take]
    exact (List.take_sublist _ _).filterMap oracle
  · rw [summaries_eq, (schedule_none articles 0).1]

/-! ## Parsing a generated response into summary points
(summarize.py lines 93-133) -/

/-- Python `str.strip()` with no argument: remove surrounding
whitespace. -/
def pyStrip (s : String) : String :=
  String.mk (((s.toList.dropWhile Char.isWhitespace).reverse.dropWhile
    Char.isWhitespace).reverse)

/-- Python `response.split(chr(10))`, over the character list. -/
def splitLines (s : String) : List String :=
  (s.toList.splitOn '\n').map String.mk

/-- The bullet-marker characters of `line.lstrip(...)` at summarize.py
line 114. -/
def isBulletChar (c : Char) : Bool :=
  c = '-' || c = '*' || c = '•'

/-- The numbering characters of the second `lstrip` at summarize.py line
114: the ten digits and the dot. -/
def isNumberingChar (c : Char) : Bool :=
  c.isDigit || c = '.'

/-- Embeds the point-parsing of `summarize_article` (summarize.py lines
109-119): split the response into lines, strip them, drop blank ones,
strip bullet and numbering markers, keep a line only when more than 10
characters survive, and truncate to the configured bound. -/
def parse_points (response : String) (max_points : Nat) : List String :=
  let lines := ((splitLines response).map pyStrip).filter fun l => l ≠ ""
  let pts := lines.filterMap fun line =>
    let cleaned := pyStrip (String.mk
      ((line.toList.dropWhile isBulletChar).dropWhile isNumberingChar))
    if cleaned ≠ "" ∧ cleaned.length > 10 then some cleaned else none
  pts.take max_points

/-- Embeds `summarize_article` (summarize.py lines 93-133) on a
successful generation: the LLM response text is a parameter, and when
fewer than 3 parsed points remain the whole raw response is kept as a
single point (lines 121-123). -/
def summarize_article (article : ArticleIn) (response : String)
    (max_points : Nat) : SummaryRecord :=
  let summary_points := parse_points response max_points
  let summary_points :=
    if summary_points.length < 3 then [response] else summary_points
  ⟨article.title, article.url, summary_points⟩

/-- Every parsed point has more than 10 characters. -/
theorem parse_points_length {p response : String} {mp : Nat}
    (hp : p ∈ parse_points response mp) : 10 < p.length := by
  simp only [parse_points] at hp
  have hp' := (List.take_sublist _ _).mem hp
  rw [List.mem_filterMap] at hp'
  obtain ⟨line, _, hsome⟩ := hp'
  split at hsome
  · next hcond =>
      cases hsome
      exact hcond.2
  · cases hsome

/-- C5 counterexample: a bullet-free response of three long lines is
parsed into three points, not a single point equal to the raw response;
and an empty response yields the single point `""`, which is empty. -/
theorem c5_counterexample :
    (("first long informative line\nsecond long informative line\nthird long informative line".toList.all
      fun c => ! isBulletChar c) = true) ∧
    (summarize_article ⟨"T", "U", "B"⟩
        "first long informative line\nsecond long informative line\nthird long informative line"
        8).summary =
      ["first long informative line", "second long informative line",
        "third long informative line"] ∧
    ["first long informative line", "second long informative line",
        "third long informative line"] ≠
      ["first long informative line\nsecond long informative line\nthird long informative line"] ∧
    (summarize_article ⟨"T", "U", "B"⟩ "" 8).summary = [""] := by
  decide

/-- C5 (amended): whenever fewer than 3 usable points survive parsing
(short lines discarded and the result truncated to the max-points bound),
the entire raw response is kept as the single summary point — in
particular any response with fewer than 3 long lines, bullet-marked or
not, yields exactly one point equal to the raw response — while a
response with 3 or more surviving points keeps those points; every
successful call yields at least one summary point, and every point is
non-empty provided the raw response is non-empty. -/
theorem c5_parse_fallback_amended :
    ∀ (article : ArticleIn) (response : String) (max_points : Nat),
      ((parse_points response max_points).length < 3 →
        (summarize_article article response max_points).summary = [response]) ∧
      (3 ≤ (parse_points response max_points).length →
        (summarize_article article response max_points).summary =
          parse_points response max_points) ∧
      1 ≤ (summarize_article article response max_points).summary.length ∧
      (response ≠ "" →
        ∀ p ∈ (summarize_article article response max_points).summary, p ≠ "") := by
  intro article response mp
  by_cases h : (parse_points response mp).length < 3
  · have e : (summarize_article article response mp).summary = [response] := by
      simp [summarize_article, h]
    refine ⟨fun _ => e, fun h3 => absurd h (by omega), by rw [e]; simp, ?_⟩
    intro hne p hp
    rw [e] at hp
    rcases List.mem_singleton.mp hp with rfl
    exact hne
  · have e : (summarize_article article response mp).summary =
        parse_points response mp := by
      simp [summarize_article, h]
    refine ⟨fun hlt => absurd hlt h, fun _ => e, ?_, ?_⟩
    · rw [e]; omega
    · intro _ p hp
      rw [e] at hp
      have := parse_points_length hp
      intro hpe
      rw [hpe] at this
      exact absurd this (by decide)

/-- C5 witness: a short response falls back to a single point equal to
the raw response. -/
theorem c5_parse_fallback_witness :
    (summarize_article ⟨"T", "U", "B"⟩ "short" 8).summary = ["short"] :=
  (c5_parse_fallback_amended ⟨"T", "U", "B"⟩ "short" 8).1 (by decide)

/-! ## Durable dedup cache (collect.py lines 29-72)

The JSON backing file is modelled by the `store` field; `_save_cache`
(lines 47-53) becomes copying the in-memory table into `store`.
Timestamps are Nat values measured in hours, so `timedelta(hours=d)`
is addition of `d`. -/

/-- Lookup in an association list, modelling Python `dict` access. -/
def alistLookup (url : String) : List (String × Nat) → Option Nat
  | [] => none
  | kv :: rest => if kv.1 = url then some kv.2 else alistLookup url rest

/-- Deletion of a key, modelling Python `del d[k]`. -/
def alistErase (url : String) (l : List (String × Nat)) : List (String × Nat) :=
  l.filter fun kv => kv.1 ≠ url

/-- Insertion-or-update of a key, modelling Python `d[k] = v` (an
existing key keeps its position, a new key is appended). -/
def alistInsert (url : String) (t : Nat) (l : List (String × Nat)) :
    List (String × Nat) :=
  if (alistLookup url l).isSome then
    l.map fun kv => if kv.1 = url then (kv.1, t) else kv
  else
    l ++ [(url, t)]

/-- Embeds the `ArticleCache` state: the in-memory `self.cache` dict and
the persisted backing file contents. -/
structure ArticleCache where
  cache : List (String × Nat)
  store : List (String × Nat)
  duration_hours : Nat
deriving DecidableEq, Repr

/-- Embeds `ArticleCache.is_cached` (collect.py lines 55-67): a hit on an
entry older than `duration_hours` deletes it from the in-memory dict
(without saving) and reports a miss. Returns the result together with the
successor cache state. -/
def ArticleCache.is_cached (c : ArticleCache) (now : Nat) (url : String) :
    Bool × ArticleCache :=
  match alistLookup url c.cache with
  | none => (false, c)
  | some t =>
      if now > t + c.duration_hours then
        (false, { c with cache := alistErase url c.cache })
      else
        (true, c)

/-- Embeds `ArticleCache.add` (collect.py lines 69-72): stamp the current
time and persist the whole table (`_save_cache`). -/
def ArticleCache.add (c : ArticleCache) (now : Nat) (url : String) :
    ArticleCache :=
  let newCache := alistInsert url now c.cache
  { cache := newCache, store := newCache, duration_hours := c.duration_hours }

/-! ## Ingestion pipeline (collect.py lines 75-91, 210-280) -/

/-- Python `str.startswith`. -/
def pyStartsWith (s pre : String) : Bool :=
  List.isPrefixOf pre.toList s.toList

/-- Embeds `load_allowlist` (collect.py lines 75-91). The file system is
modelled by the optional file contents: `none` is a missing file
(`FileNotFoundError`), and a file whose lines are all blank or
`#`-comments gives the empty-allowlist `ValueError`. The Python set of
domains is modelled as the list of kept lines, membership-equivalent. -/
def load_allowlist (contents : Option String) : Except String (List String) :=
  match contents with
  | none => Except.error "Allowlist not found"
  | some text =>
      let domains := (((splitLines text).map pyStrip).filter fun s =>
        s ≠ "" ∧ pyStartsWith s "#" = false).map pyLower
      if domains = [] then Except.error "Allowlist is empty"
      else Except.ok domains

/-- The dictionary returned by `extract_article_content` (collect.py
lines 178-207), restricted to the fields `collect_articles` reads. -/
structure ExtractedArticle where
  url : String
  title : String
  text : String
  summary : Option String
  publish_date : Option String
deriving DecidableEq, Repr

/-- The body choice `article.get(chr(116)...) or article.get(...)` of
collect.py line 264: the primary text when truthy, else the fallback
summary, else the empty (falsy) string. -/
def chooseBody (a : ExtractedArticle) : String :=
  if a.text ≠ "" then a.text else a.summary.getD ""

/-- First-seen-order deduplication, as `dict.fromkeys` at collect.py
line 229. -/
def dedupFirstAux : List String → List String → List String
  | [], _ => []
  | x :: xs, seen =>
      if x ∈ seen then dedupFirstAux xs seen
      else x :: dedupFirstAux xs (x :: seen)

/-- The cache-filtering comprehension of collect.py line 233, threading
the cache state through the `is_cached` calls (which may purge expired
entries). -/
def filterCached (now : Nat) : ArticleCache → List String →
    List String × ArticleCache
  | c, [] => ([], c)
  | c, u :: us =>
      let r := c.is_cached now u
      let rest := filterCached now r.2 us
      (if r.1 then rest.1 else u :: rest.1, rest.2)

/-- The extraction loop of collect.py lines 258-278: per-URL extraction
failures (`extract u = none`) skip the URL; an accepted article has its
body written back into `text` and its URL committed to the cache. -/
def extractPhase (extract : String → Option ExtractedArticle) (now : Nat) :
    ArticleCache → List String → List ExtractedArticle × ArticleCache
  | c, [] => ([], c)
  | c, u :: us =>
      match extract u with
      | none => extractPhase extract now c us
      | some art =>
          let body := chooseBody art
          if body.length > 50 then
            let c2 := c.add now u
            let rest := extractPhase extract now c2 us
            ({ art with text := body } :: rest.1, rest.2)
          else
            extractPhase extract now c us

/-- Embeds `collect_articles` (collect.py lines 210-280). The feed fetch
(`collect_rss_urls`) has already produced `urls`; URL parsing, DNS and
content extraction are passed in as functions; the allowlist file is its
optional contents. An allowlist error propagates as `Except.error` (the
re-raise of lines 240-244), but only after the early return of lines
236-238 when no new URL remains. -/
def collect_articles (urls : List String) (now : Nat) (cache : ArticleCache)
    (allowlist_contents : Option String) (parse_url : String → ParsedUrl)
    (resolver : String → List IPAddr)
    (extract : String → Option ExtractedArticle) :
    Except String (List ExtractedArticle × ArticleCache) :=
  let unique := dedupFirstAux urls []
  let filtered := filterCached now cache unique
  if filtered.1 = [] then Except.ok ([], filtered.2)
  else
    match load_allowlist allowlist_contents with
    | Except.error e => Except.error e
    | Except.ok allowed_domains =>
        let secure_urls := filtered.1.filter fun u =>
          (validate_article_url (parse_url u) allowed_domains resolver).1
        if secure_urls = [] then Except.ok ([], filtered.2)
        else Except.ok (extractPhase extract now filtered.2 secure_urls)

/-- Embeds `_summary_max_points` (summarize.py lines 136-145). The
`SUMMARY_MAX_POINTS` environment variable is the optional `raw` argument
(`os.getenv` default makes an unset variable the empty string); `int(...)`
is modelled for optionally-signed digit literals, anything else raising
`ValueError`, on which the default 8 is returned. -/
def _summary_max_points (raw : Option String) : Nat :=
  let stripped := pyStrip (raw.getD "")
  if stripped = "" then 8
  else
    match pyParseInt stripped with
    | none => 8
    | some n => if n > 0 then n.toNat else 8
where
  digitsToNat (l : List Char) : Nat :=
    l.foldl (fun acc c => acc * 10 + (c.toNat - 48)) 0
  pyParseInt (s : String) : Option Int :=
    match s.toList with
    | [] => none
    | '-' :: rest =>
        if rest ≠ [] ∧ rest.all Char.isDigit then
          some (-(Int.ofNat (digitsToNat rest)))
        else none
    | '+' :: rest =>
        if rest ≠ [] ∧ rest.all Char.isDigit then
          some (Int.ofNat (digitsToNat rest))
        else none
    | l =>
        if l.all Char.isDigit then some (Int.ofNat (digitsToNat l)) else none

/-- The empty cache with the default 24-hour expiry. -/
def emptyCache : ArticleCache := ⟨[], [], 24⟩

/-- C8 counterexample: on a cache whose single entry is expired,
`is_cached` purges the in-memory table but leaves the persisted store
untouched, so after this mutation the store differs from the table,
contradicting the claimed write-through invariant. -/
theorem c8_counterexample :
    ((ArticleCache.mk [("u", 0)] [("u", 0)] 24).is_cached 25 "u").1 = false ∧
    ((ArticleCache.mk [("u", 0)] [("u", 0)] 24).is_cached 25 "u").2.cache = [] ∧
    ((ArticleCache.mk [("u", 0)] [("u", 0)] 24).is_cached 25 "u").2.store =
      [("u", 0)] ∧
    ((ArticleCache.mk [("u", 0)] [("u", 0)] 24).is_cached 25 "u").2.store ≠
      ((ArticleCache.mk [("u", 0)] [("u", 0)] 24).is_cached 25 "u").2.cache := by
  decide

/-- C8 (amended): `add` is write-through — after it the persisted store
equals the in-memory table, which gained the freshly stamped entry — but
the lazy purge of `is_cached` mutates only the in-memory table: the store
is never touched by `is_cached`, even when an expired entry is removed
and the lookup reports a miss. -/
theorem c8_write_through_amended :
    ∀ (c : ArticleCache) (now : Nat) (url : String),
      (c.add now url).store = (c.add now url).cache ∧
      (c.add now url).cache = alistInsert url now c.cache ∧
      ((c.is_cached now url).2).store = c.store ∧
      (∀ t, alistLookup url c.cache = some t → now > t + c.duration_hours →
        (c.is_cached now url).1 = false ∧
        (c.is_cached now url).2.cache = alistErase url c.cache) := by
  intro c now url
  refine ⟨rfl, rfl, ?_, ?_⟩
  · simp only [ArticleCache.is_cached]
    cases alistLookup url c.cache with
    | none => rfl
    | some t =>
        dsimp only
        split <;> rfl
  · intro t ht hexp
    simp only [ArticleCache.is_cached, ht, if_pos hexp]
    exact ⟨trivial, trivial⟩

/-- C8 witness: the amended statement applied to the expired single-entry
cache. -/
theorem c8_write_through_witness :
    ((ArticleCache.mk [("u", 0)] [("u", 0)] 24).is_cached 25 "u").1 = false :=
  ((c8_write_through_amended ⟨[("u", 0)], [("u", 0)], 24⟩ 25 "u").2.2.2 0
    (by decide) (by decide)).1

/-- C6 counterexample: with no collected URLs and a missing allowlist
file, `collect_articles` returns an empty result instead of raising, and
an invalid numeric `SUMMARY_MAX_POINTS` value yields the default 8
instead of aborting — so not every configuration error is fatal. -/
theorem c6_counterexample :
    collect_articles [] 0 emptyCache none (fun _ => ⟨"https", none⟩)
      (fun _ => []) (fun _ => none) = Except.ok ([], emptyCache) ∧
    _summary_max_points (some "not-a-number") = 8 :=
  ⟨rfl, by decide⟩

/-- C6 (amended): a missing or empty allowlist is fatal exactly when new
(uncached) URLs remain after deduplication and cache filtering —
`collect_articles` then propagates the allowlist error — while with no
new URLs it returns the empty result without consulting the allowlist;
the allowlist is loaded only after feed collection, not before all
network activity; a missing file and an all-blank-or-comment file are
both load errors; and an invalid max-summary-points value is not fatal,
always yielding a positive bound (the default 8). -/
theorem c6_allowlist_fatal_amended :
    (∀ (urls : List String) (now : Nat) (cache : ArticleCache)
        (contents : Option String) (parse_url : String → ParsedUrl)
        (resolver : String → List IPAddr)
        (extract : String → Option ExtractedArticle) (msg : String),
      load_allowlist contents = Except.error msg →
      (filterCached now cache (dedupFirstAux urls [])).1 ≠ [] →
      collect_articles urls now cache contents parse_url resolver extract =
        Except.error msg) ∧
    (∀ (urls : List String) (now : Nat) (cache : ArticleCache)
        (contents : Option String) (parse_url : String → ParsedUrl)
        (resolver : String → List IPAddr)
        (extract : String → Option ExtractedArticle),
      (filterCached now cache (dedupFirstAux urls [])).1 = [] →
      collect_articles urls now cache contents parse_url resolver extract =
        Except.ok ([], (filterCached now cache (dedupFirstAux urls [])).2)) ∧
    (∀ raw, 0 < _summary_max_points raw) ∧
    load_allowlist none = Except.error "Allowlist not found" ∧
    (∀ text : String,
      (((splitLines text).map pyStrip).filter fun s =>
        s ≠ "" ∧ pyStartsWith s "#" = false) = [] →
      load_allowlist (some text) = Except.error "Allowlist is empty") := by
  refine ⟨?_, ?_, ?_, rfl, ?_⟩
  · intro urls now cache contents parse_url resolver extract msg herr hne
    simp only [collect_articles, if_neg hne, herr]
  · intro urls now cache contents parse_url resolver extract hempty
    simp only [collect_articles, if_pos hempty]
  · intro raw
    simp only [_summary_max_points]
    split
    · omega
    · split
      · omega
      · split <;> omega
  · intro text hfilter
    simp only [load_allowlist, hfilter, List.map_nil, if_pos]

/-- C6 witness: one uncached URL plus a missing allowlist file makes the
run abort with the allowlist error. -/
theorem c6_allowlist_fatal_witness :
    collect_articles ["u1"] 0 emptyCache none (fun _ => ⟨"https", none⟩)
      (fun _ => []) (fun _ => none) = Except.error "Allowlist not found" :=
  c6_allowlist_fatal_amended.1 ["u1"] 0 emptyCache none
    (fun _ => ⟨"https", none⟩) (fun _ => []) (fun _ => none)
    "Allowlist not found" rfl (by decide)

/-! ## Retry policy (src/utils/retry.py)

A Python exception is modelled by the attributes `_should_retry` reads:
its membership in the caught exception classes and its optional
`status_code` and `response.status_code` attributes. The tenacity
combinator built by `_build_retry_decorator` — `stop_after_attempt(5)`,
`wait_exponential(multiplier=1, min=1, max=30)`,
`retry_if_exception(_should_retry)`, `reraise=True` — is an external
collaborator; it is modelled as a fuel-indexed loop over the outcome of
each numbered attempt, returning the result together with the number of
attempts made, and as tenacity's wait formula
`clamp(min, max, multiplier * base ^ attempt_number)`. -/

/-- The `RETRYABLE_STATUS_CODES` set of retry.py line 19. -/
def RETRYABLE_STATUS_CODES : List Nat := [408, 409, 425, 429, 500, 502, 503, 504]

/-- An exception as observed by `_should_retry`: which of the tested
classes it belongs to, and the HTTP status attributes it carries
(`none` models a missing attribute or a `response` of `None`). -/
structure PyException where
  isTimeoutError : Bool
  isRequestsTimeout : Bool
  isConnectionError : Bool
  isChunkedEncodingError : Bool
  isRequestException : Bool
  status_code : Option Nat
  response_status : Option Nat
deriving DecidableEq, Repr

/-- The status test of `_has_retryable_status` (retry.py lines 25 and
31): `if code and (code >= 500 or code in RETRYABLE_STATUS_CODES)` — a
zero code is falsy and short-circuits to no retry. -/
def retryable_code (c : Nat) : Bool :=
  if c ≠ 0 ∧ (500 ≤ c ∨ c ∈ RETRYABLE_STATUS_CODES) then true else false

/-- Embeds `_has_retryable_status` (retry.py lines 22-34): the direct
`status_code` attribute first, then the attached response's status. -/
def _has_retryable_status (e : PyException) : Bool :=
  (match e.status_code with
   | some c => retryable_code c
   | none => false) ||
  (match e.response_status with
   | some c => retryable_code c
   | none => false)

/-- Embeds `_should_retry` (retry.py lines 37-58). -/
def _should_retry (e : PyException) : Bool :=
  if e.isTimeoutError then true
  else if e.isRequestsTimeout || e.isConnectionError || e.isChunkedEncodingError then
    true
  else if e.isRequestException then _has_retryable_status e
  else if _has_retryable_status e then true
  else false

/-- The tenacity retry loop as configured by `_build_retry_decorator`:
`fuel` is the number of retries still allowed, `n` the current attempt
number, and `attempts n` the outcome of the n-th call. Returns the final
outcome (with `reraise=True` the final error is the last attempt's
exception, unwrapped) and the number of attempts made. -/
def tenacityRun {α : Type} (attempts : Nat → Except PyException α) :
    Nat → Nat → Except PyException α × Nat
  | 0, n => (attempts n, 1)
  | fuel + 1, n =>
      match attempts n with
      | Except.ok a => (Except.ok a, 1)
      | Except.error e =>
          if _should_retry e then
            let r := tenacityRun attempts fuel (n + 1)
            (r.1, r.2 + 1)
          else
            (Except.error e, 1)

/-- A call through the `llm_retry` decorator: `stop_after_attempt(5)`
allows the first attempt plus four retries. -/
def llm_retry_call {α : Type} (attempts : Nat → Except PyException α) :
    Except PyException α × Nat :=
  tenacityRun attempts 4 1

/-- Tenacity's `wait_exponential(multiplier, min, max)` formula for the
wait after the n-th attempt:
`max(max(0, min), min(multiplier * 2 ^ n, max))`. -/
def waitExponential (multiplier minW maxW n : Nat) : Nat :=
  max (max 0 minW) (min (multiplier * 2 ^ n) maxW)

/-- The wait schedule configured by `_build_retry_decorator`:
`wait_exponential(multiplier=1, min=1, max=30)`. -/
def llm_wait (n : Nat) : Nat := waitExponential 1 1 30 n

/-- An exception that is only a `ChunkedEncodingError` (a
`RequestException` subclass) with no status attribute. -/
def chunkedExc : PyException := ⟨false, false, false, true, true, none, none⟩

/-- The loop never makes more than `fuel + 1` attempts. -/
theorem tenacityRun_le {α : Type} (attempts : Nat → Except PyException α) :
    ∀ fuel n, (tenacityRun attempts fuel n).2 ≤ fuel + 1 := by
  intro fuel
  induction fuel with
  | zero => intro n; simp [tenacityRun]
  | succ fuel ih =>
      intro n
      simp only [tenacityRun]
      cases attempts n with
      | ok a => simp
      | error e =>
          dsimp only
          split
          · have := ih (n + 1)
            simp only []
            omega
          · simp

/-- A non-retryable first error stops the loop immediately, re-raising
that error. -/
theorem tenacityRun_first_fail {α : Type} (attempts : Nat → Except PyException α)
    (fuel n : Nat) (e : PyException) (h : attempts n = Except.error e)
    (hs : _should_retry e = false) :
    tenacityRun attempts fuel n = (Except.error e, 1) := by
  cases fuel with
  | zero => simp [tenacityRun, h]
  | succ fuel => simp [tenacityRun, h, hs]

/-- When every allowed attempt fails with a retryable error, the loop
exhausts the fuel and re-raises the last attempt's error unmodified. -/
theorem tenacityRun_all_fail {α : Type} (attempts : Nat → Except PyException α) :
    ∀ fuel n,
      (∀ k, n ≤ k → k < n + fuel →
        ∃ e, attempts k = Except.error e ∧ _should_retry e = true) →
      ∀ e, attempts (n + fuel) = Except.error e →
      tenacityRun attempts fuel n = (Except.error e, fuel + 1) := by
  intro fuel
  induction fuel with
  | zero =>
      intro n _ e hlast
      simp only [Nat.add_zero] at hlast
      simp [tenacityRun, hlast]
  | succ fuel ih =>
      intro n hall e hlast
      obtain ⟨e0, h0, r0⟩ := hall n (Nat.le_refl n) (by omega)
      have hrec := ih (n + 1)
        (fun k hk1 hk2 => hall k (by omega) (by omega)) e
        (by rw [show n + 1 + fuel = n + (fuel + 1) by omega]; exact hlast)
      simp [tenacityRun, h0, r0, hrec]

/-- C7 counterexample: an exception that is only a
`ChunkedEncodingError` — neither a connection nor a timeout error, and
carrying no HTTP status — is nevertheless retried, so the claimed
if-and-only-if characterization of the transient set fails. -/
theorem c7_counterexample :
    _should_retry chunkedExc = true ∧
    chunkedExc.isTimeoutError = false ∧
    chunkedExc.isRequestsTimeout = false ∧
    chunkedExc.isConnectionError = false ∧
    _has_retryable_status chunkedExc = false := by
  decide

/-- C7 (amended): the wrapper retries exactly the transient errors —
connection errors, timeouts, chunked-encoding protocol errors, or an
error carrying an HTTP status in 408, 409, 425, 429 or at least 500 — it
makes at most 5 total attempts, a non-transient first error propagates
immediately unmodified after a single attempt, five transient failures
exhaust the attempts and re-raise the fifth attempt's exception
unmodified, and the configured backoff is exponential, clamped between 1
and 30 time-units. -/
theorem c7_retry_amended :
    (∀ e : PyException, _should_retry e =
      (e.isTimeoutError || e.isRequestsTimeout || e.isConnectionError ||
        e.isChunkedEncodingError || _has_retryable_status e)) ∧
    (∀ c : Nat, retryable_code c = true ↔
      (c ∈ ([408, 409, 425, 429] : List Nat) ∨ 500 ≤ c)) ∧
    (∀ (α : Type) (attempts : Nat → Except PyException α),
      (llm_retry_call attempts).2 ≤ 5) ∧
    (∀ (α : Type) (attempts : Nat → Except PyException α) (e : PyException),
      attempts 1 = Except.error e → _should_retry e = false →
      llm_retry_call attempts = (Except.error e, 1)) ∧
    (∀ (α : Type) (attempts : Nat → Except PyException α) (e5 : PyException),
      (∀ n, 1 ≤ n → n ≤ 4 →
        ∃ e, attempts n = Except.error e ∧ _should_retry e = true) →
      attempts 5 = Except.error e5 →
      llm_retry_call attempts = (Except.error e5, 5)) ∧
    (∀ n : Nat, llm_wait n = max 1 (min (2 ^ n) 30) ∧
      1 ≤ llm_wait n ∧ llm_wait n ≤ 30) := by
  refine ⟨?_, ?_, ?_, ?_, ?_, ?_⟩
  · intro e
    obtain ⟨t, rt, ce, ch, re, sc, rs⟩ := e
    cases hs : _has_retryable_status ⟨t, rt, ce, ch, re, sc, rs⟩ <;>
      cases t <;> cases rt <;> cases ce <;> cases ch <;> cases re <;>
        simp_all [_should_retry]
  · intro c
    constructor
    · intro h
      simp only [retryable_code] at h
      split at h
      · next hc =>
          simp only [RETRYABLE_STATUS_CODES, List.mem_cons,
            List.not_mem_nil, or_false] at hc
          simp only [List.mem_cons, List.not_mem_nil, or_false]
          omega
      · next => cases h
    · intro h
      have hc : c ≠ 0 ∧ (500 ≤ c ∨ c ∈ RETRYABLE_STATUS_CODES) := by
        simp only [List.mem_cons, List.not_mem_nil, or_false] at h
        simp only [RETRYABLE_STATUS_CODES, List.mem_cons,
          List.not_mem_nil, or_false]
        omega
      simp [retryable_code, hc]
  · intro α attempts
    have := tenacityRun_le attempts 4 1
    simpa [llm_retry_call] using this
  · intro α attempts e h1 hs
    exact tenacityRun_first_fail attempts 4 1 e h1 hs
  · intro α attempts e5 hall h5
    have := tenacityRun_all_fail attempts 4 1
      (fun k hk1 hk2 => hall k hk1 (by omega)) e5 (by simpa using h5)
    simpa [llm_retry_call] using this
  · intro n
    refine ⟨?_, ?_, ?_⟩
    · simp [llm_wait, waitExponential, Nat.one_mul]
    · exact Nat.le_max_left _ _
    · refine Nat.max_le.mpr ⟨?_, Nat.le_trans (Nat.min_le_right _ _) ?_⟩ <;>
        simp [llm_wait, waitExponential]

/-- C7 witness: a 401 authentication failure is not retried and
propagates after one attempt. -/
theorem c7_retry_witness :
    llm_retry_call (fun _ =>
      Except.error (⟨false, false, false, false, true, some 401, none⟩ : PyException) :
      Nat → Except PyException Unit) =
    (Except.error ⟨false, false, false, false, true, some 401, none⟩, 1) :=
  c7_retry_amended.2.2.2.1 Unit
    (fun _ => Except.error ⟨false, false, false, false, true, some 401, none⟩)
    ⟨false, false, false, false, true, some 401, none⟩ rfl (by decide)
